import Mathlib

/-!
Verification of the PEKAT VISION Python SDK client (`src/PekatVisionSDK/instance.py`,
`result.py`) against its specification, via a shallow embedding in Lean 4.

Modelling conventions:
* Python `bytes` values are `List Nat` (`ByteSeq`); the 0–255 bound is irrelevant to the
  properties proved here.
* External collaborators (the JSON parser `json.loads` / `response.json()`, and
  `base64.b64decode`) are abstract function parameters: the decoding logic of the SDK
  does not inspect their output, it only routes bytes to them.
* HTTP requests are represented by the `HttpRequest` description the SDK would send
  (endpoint, url, body); an `Except.error` return of `analyze` means no request is
  issued, mirroring that the Python code raises before any `session.post` call.
* The launch procedure's process output is a finite list of lines (what
  `process.stdout.readline` yields before end-of-file); `readline` returning `""`
  happens exactly at end-of-file, and `process.poll() is not None` at that moment is
  the `exited` flag.
-/

namespace PV

/-- Python `bytes` as a list of naturals. -/
abbrev ByteSeq := List Nat

/-- Is `sub` a contiguous sublist of the second argument? (Python's `sub in s` on the
underlying characters.) -/
def listContainsSub (sub : List Char) : List Char → Bool
  | [] => sub.isEmpty
  | c :: rest => sub.isPrefixOf (c :: rest) || listContainsSub sub rest

/-- Python's substring test `sub in s`. -/
def strIn (sub s : String) : Bool := listContainsSub sub.toList s.toList

/-- Python slice `l[:n]` for an `int` index `n` (negative indices count from the end). -/
def pySliceTo (n : Int) (l : ByteSeq) : ByteSeq :=
  if 0 ≤ n then l.take n.toNat else l.take (l.length - min l.length n.natAbs)

/-- Python slice `l[n:]` for an `int` index `n` (negative indices count from the end). -/
def pySliceFrom (n : Int) (l : ByteSeq) : ByteSeq :=
  if 0 ≤ n then l.drop n.toNat else l.drop (l.length - min l.length n.natAbs)

/-- Digit-string value: `none` unless the list is one or more decimal digits. -/
def digitsVal? (l : List Char) : Option Nat :=
  if l.isEmpty then none
  else
    l.foldl
      (fun acc? c =>
        acc?.bind (fun acc => if c.isDigit then some (acc * 10 + (c.toNat - 48)) else none))
      (some 0)

/-- Python `int(s)` on a canonical decimal string (optional leading minus, then
digits); `none` models the `ValueError` raised on anything else. -/
def pyInt (s : String) : Option Int :=
  match s.toList with
  | '-' :: rest => (digitsVal? rest).map (fun n => -(n : Int))
  | l => (digitsVal? l).map (fun n => (n : Int))

/-- Model of `packaging.version.Version` restricted to numeric release triples, which is the
only shape the SDK compares (`server_version >= version.parse("3.18.0")`). -/
structure PkgVersion where
  major : Nat
  minor : Nat
  micro : Nat
deriving DecidableEq, Repr

/-- Here `a.ge b` is `a >= b` on release triples, ordered lexicographically as
`packaging.version` orders purely numeric releases. -/
def PkgVersion.ge (a b : PkgVersion) : Bool :=
  b.major < a.major ||
    (b.major == a.major &&
      (b.minor < a.minor || (b.minor == a.minor && b.micro ≤ a.micro)))

/-- The compatibility threshold `version.parse("3.18.0")` of `Instance._can_use_shm`. -/
def v3_18_0 : PkgVersion := ⟨3, 18, 0⟩

/-- Model of `PekatVisionSDK.result.Result`: a pair of optional encoded image bytes and the
parsed context. The context type is abstract (the SDK stores whatever the JSON parser
returns). -/
structure Result (Ctx : Type) where
  image_bytes : Option ByteSeq
  context : Ctx
deriving DecidableEq, Repr

/-- An HTTP response as the SDK reads it: a byte body and a header mapping
(`requests.Response.content` / `.headers`). -/
structure Response where
  content : ByteSeq
  headers : List (String × String)
deriving DecidableEq, Repr

/-- Model of `response.headers.get(k)`: first binding of `k`, if any. -/
def Response.headerGet (r : Response) (k : String) : Option String :=
  (r.headers.find? (fun kv => kv.1 == k)).map (fun kv => kv.2)

/-- The server endpoints used by the analyze transport adapters (`UrlEndpoint`
literal type in `instance.py`). -/
inductive UrlEndpoint
  | analyze_image
  | analyze_raw_image
  | analyze_image_shared_memory
deriving DecidableEq, Repr

/-- The path string of each endpoint, as interpolated into the URL. -/
def UrlEndpoint.path : UrlEndpoint → String
  | .analyze_image => "analyze_image"
  | .analyze_raw_image => "analyze_raw_image"
  | .analyze_image_shared_memory => "analyze_image_shared_memory"

/-- Source constant `ALLOWED_RESPONSE_TYPES = get_args(ResponseType)`. -/
def ALLOWED_RESPONSE_TYPES : List String :=
  ["context", "image", "annotated_image", "heatmap"]

/-- The configuration and cached state of `PekatVisionSDK.Instance` that the analyze
protocol reads: host/port, the `context_in_body` flag, the local interface addresses
returned by `_get_local_addresses()`, the cached `server_version`, and the
shared-memory segment name `self._shm.name`. -/
structure Instance where
  host : String
  port : Nat
  context_in_body : Bool
  localAddresses : List String
  serverVersion : PkgVersion
  shmName : String
deriving DecidableEq, Repr

/-- Model of `self._is_local = self.host in [*_get_local_addresses(), "127.0.0.1", "localhost"]`. -/
def Instance.is_local (i : Instance) : Bool :=
  (i.localAddresses ++ ["127.0.0.1", "localhost"]).contains i.host

/-- Model of `Instance._can_use_shm`: local host and server version at least 3.18.0. -/
def Instance.can_use_shm (i : Instance) : Bool :=
  i.is_local && i.serverVersion.ge v3_18_0

/-- Model of `Instance._response_to_result`. `jsonLoads` stands for `json.loads` /
`response.json()` (applied to bytes; `.decode()` + `json.loads` on a `str` is the
same composite), `b64decode` for `base64.b64decode`. Returns `none` where the Python
code raises (a non-integer `ImageLen` header). The Python guard
`if not image_len_str` is falsy for both a missing header and the empty string, hence
the two successive checks. -/
def Instance.response_to_result {Ctx : Type} (i : Instance) (jsonLoads : ByteSeq → Ctx)
    (b64decode : String → ByteSeq) (resp : Response) (response_type : String) :
    Option (Result Ctx) :=
  if response_type = "context" then
    some ⟨none, jsonLoads resp.content⟩
  else if i.context_in_body then
    match resp.headerGet "ImageLen" with
    | Option.none => some ⟨none, jsonLoads resp.content⟩
    | Option.some image_len_str =>
      if image_len_str = "" then some ⟨none, jsonLoads resp.content⟩
      else
        match pyInt image_len_str with
        | Option.none => none
        | Option.some image_len =>
          some ⟨some (pySliceTo image_len resp.content),
                jsonLoads (pySliceFrom image_len resp.content)⟩
  else
    match resp.headerGet "ContextBase64utf" with
    | Option.none => some ⟨none, jsonLoads resp.content⟩
    | Option.some context_base64 =>
      some ⟨some resp.content, jsonLoads (b64decode context_base64)⟩

/-- A Python value interpolated into the query string by `_construct_url`'s
f-string `f"{key}={value}"`. -/
inductive PyValue
  | none
  | str (s : String)
  | nat (n : Nat)
deriving DecidableEq, Repr

/-- Python's `str()` rendering as used by the f-string: `None` renders as `"None"`. -/
def pyStr : PyValue → String
  | .none => "None"
  | .str s => s
  | .nat n => toString n

/-- An `Optional[str]` argument as the `PyValue` it interpolates to. -/
def pyOfOptStr : Option String → PyValue
  | Option.none => .none
  | Option.some s => .str s

/-- Model of `Instance._construct_url`: base URL with `response_type`, then the `&`-joined
keyword arguments (appended only when nonempty, i.e. truthy), then the
`context_in_body` marker when the mode is enabled. -/
def Instance.construct_url (i : Instance) (path : UrlEndpoint) (response_type : String)
    (kwargs : List (String × PyValue)) : String :=
  let url := "http://" ++ i.host ++ ":" ++ toString i.port ++ "/" ++ path.path ++
    "?response_type=" ++ response_type
  let other_args := String.intercalate "&" (kwargs.map (fun kv => kv.1 ++ "=" ++ pyStr kv.2))
  let url := if other_args ≠ "" then url ++ "&" ++ other_args else url
  if i.context_in_body then url ++ "&context_in_body" else url

/-- The `numpy` array data `analyze` reads: `shape[:2]` and `tobytes()`. -/
structure NdArray where
  height : Nat
  width : Nat
  tobytes : ByteSeq
deriving DecidableEq, Repr

/-- The `image` argument of `analyze`: a file path, raw encoded bytes, a pixel
array, or a value of any other runtime type (which fails every `isinstance` test). -/
inductive ImageArg
  | path (p : String)
  | bytes (b : ByteSeq)
  | ndarray (a : NdArray)
  | other (typeName : String)
deriving DecidableEq, Repr

/-- Description of the HTTP request an analyze transport adapter sends. -/
structure HttpRequest where
  endpoint : UrlEndpoint
  url : String
  body : Option ByteSeq
deriving DecidableEq, Repr

/-- The validation errors `analyze` raises before any network call. -/
inductive AnalyzeError
  | invalidResponseType (response_type : String)
  | invalidDataType (typeName : String)
deriving DecidableEq, Repr

/-- Model of `Instance._analyze_bytes`: POST to `/analyze_image` with the bytes as body. -/
def Instance.analyze_bytes_req (i : Instance) (image : ByteSeq) (response_type : String)
    (data : Option String) : HttpRequest :=
  { endpoint := .analyze_image,
    url := i.construct_url .analyze_image response_type [("data", pyOfOptStr data)],
    body := some image }

/-- Model of `Instance._analyze_file`: read the file's bytes, then `_analyze_bytes`. The
filesystem is the abstract map `readFile`. -/
def Instance.analyze_file_req (i : Instance) (readFile : String → ByteSeq) (p : String)
    (response_type : String) (data : Option String) : HttpRequest :=
  i.analyze_bytes_req (readFile p) response_type data

/-- Model of `Instance._analyze_numpy`: POST to `/analyze_raw_image` with pixel bytes as body
and `height`/`width` query parameters. -/
def Instance.analyze_numpy_req (i : Instance) (image : NdArray) (response_type : String)
    (data : Option String) : HttpRequest :=
  { endpoint := .analyze_raw_image,
    url := i.construct_url .analyze_raw_image response_type
      [("data", pyOfOptStr data), ("height", .nat image.height), ("width", .nat image.width)],
    body := some image.tobytes }

/-- Model of `Instance._analyze_numpy_shm`: POST to `/analyze_image_shared_memory` with no
body; the segment name travels as a query parameter. -/
def Instance.analyze_numpy_shm_req (i : Instance) (image : NdArray) (response_type : String)
    (data : Option String) : HttpRequest :=
  { endpoint := .analyze_image_shared_memory,
    url := i.construct_url .analyze_image_shared_memory response_type
      [("data", pyOfOptStr data), ("height", .nat image.height), ("width", .nat image.width),
       ("name", .str i.shmName)],
    body := none }

/-- Model of `Instance.analyze`: validate `response_type`, then dispatch on the runtime type
of `image`; an `Except.error` models an exception raised before any request is
issued. -/
def Instance.analyze (i : Instance) (readFile : String → ByteSeq) (image : ImageArg)
    (response_type : String) (data : Option String) : Except AnalyzeError HttpRequest :=
  if response_type ∉ ALLOWED_RESPONSE_TYPES then
    .error (.invalidResponseType response_type)
  else
    match image with
    | .path p => .ok (i.analyze_file_req readFile p response_type data)
    | .bytes b => .ok (i.analyze_bytes_req b response_type data)
    | .ndarray a =>
      if i.can_use_shm then .ok (i.analyze_numpy_shm_req a response_type data)
      else .ok (i.analyze_numpy_req a response_type data)
    | .other t => .error (.invalidDataType t)

/-- The mutable state `Instance.stop` reads and writes: whether `self.process` is
set, the private `__stopping` flag, and `self.stop_key`. -/
structure StopState where
  hasProcess : Bool
  stopping : Bool
  stop_key : Option String
deriving DecidableEq, Repr

/-- Outcome of one `stop()` call. -/
inductive StopOutcome
  | noop
  | requested
  | noConnection
deriving DecidableEq, Repr

/-- Model of `Instance.stop(timeout)`. `timedOut` says whether the GET to `/stop?key=...`
raises `requests.exceptions.Timeout`. Returns the state after the call, the outcome
(`noConnection` models the raised `NoConnectionError`), and how many shutdown
requests this call issued. -/
def stop (st : StopState) (timedOut : Bool) : StopState × StopOutcome × Nat :=
  if !st.hasProcess || st.stopping || st.stop_key.isNone then (st, .noop, 0)
  else
    let st' := { st with stopping := true }
    if timedOut then (st', .noConnection, 1) else (st', .requested, 1)

/-- The `"__SERVER_RUNNING__"` readiness marker. -/
def SERVER_RUNNING_MARKER : String := "__SERVER_RUNNING__"

/-- The `"STOP_INIT_MODEL"` models-initialized marker. -/
def STOP_INIT_MODEL_MARKER : String := "STOP_INIT_MODEL"

/-- The bind-conflict marker line content. -/
def ADDRESS_IN_USE_MARKER : String := "OSError: [Errno 48] Address already in use"

/-- Result of the readiness polling loop of `_start_instance` on one process'
output. -/
inductive PollResult
  | success
  | conflict
  | notStarted
  | hang
deriving DecidableEq, Repr

/-- The `while True` readiness loop of `_start_instance` over the finite stream of
output lines. `readline` yields `""` exactly at end-of-file, which matches no
marker, so the end of the list goes straight to the `poll()` test: `notStarted`
(the `PekatNotStartedError` raise after `break`) when the process has exited,
`hang` (the loop reads `""` forever) when not. `success` is `return None`;
`conflict` is the address-already-in-use branch, resolved by the caller. -/
def pollLines (server_running stop_init_model exited : Bool) : List String → PollResult
  | [] => if exited then .notStarted else .hang
  | line :: rest =>
    let server_running := server_running || strIn SERVER_RUNNING_MARKER line
    let stop_init_model := stop_init_model || strIn STOP_INIT_MODEL_MARKER line
    if server_running && stop_init_model then .success
    else if strIn ADDRESS_IN_USE_MARKER line then .conflict
    else pollLines server_running stop_init_model exited rest

/-- The environment of a launch: for each attempt number, the lines the spawned
process writes, whether it has exited when its stream ends, and the ephemeral port
`_find_free_ports()` hands out for the retry that starts the next attempt. -/
structure LaunchEnv where
  output : Nat → List String
  exited : Nat → Bool
  fresh : Nat → Nat

/-- Outcome of `_start_instance`: success carries the port the instance ends up
bound to; `portAllocated` is `PortIsAllocatedError`; `notStarted` is
`PekatNotStartedError`; `fuelOut` marks exhaustion of the recursion bound (the
Python recursion is unbounded). -/
inductive StartOutcome
  | started (port : Nat)
  | portAllocated (port : Nat)
  | notStarted
  | hang
  | fuelOut
deriving DecidableEq, Repr

/-- Model of `Instance._start_instance` from the spawn onward (the project/dist checks that
precede the spawn are not involved in the claims): poll the output of attempt
`attempt` with `server_running = False`, `stop_init_model = not wait_for_init_model`;
on a bind conflict, raise `PortIsAllocatedError` when the port was pinned, else take
a fresh ephemeral port and restart the whole procedure. -/
def start_instance (env : LaunchEnv) (wait_for_init_model port_is_defined : Bool) :
    Nat → Nat → Nat → StartOutcome
  | 0, _, _ => .fuelOut
  | fuel + 1, attempt, port =>
    match pollLines false (!wait_for_init_model) (env.exited attempt) (env.output attempt) with
    | .success => .started port
    | .notStarted => .notStarted
    | .hang => .hang
    | .conflict =>
      if port_is_defined then .portAllocated port
      else
        start_instance env wait_for_init_model port_is_defined fuel (attempt + 1)
          (env.fresh attempt)

/-- An image-bearing response type is one of the three non-`"context"` allowed
values. -/
def ImageBearing (response_type : String) : Prop :=
  response_type = "image" ∨ response_type = "annotated_image" ∨ response_type = "heatmap"

theorem ImageBearing.ne_context {response_type : String} (h : ImageBearing response_type) :
    response_type ≠ "context" := by
  rcases h with rfl | rfl | rfl <;> decide

/-- C1: with `context_in_body` disabled and an image-bearing `response_type`, a
response carrying a `ContextBase64utf` header decodes to image bytes = whole body and
context = JSON parsed from the base64-decoded header value; without that header the
whole body is parsed as JSON and there are no image bytes. -/
theorem C1_header_mode_decode {Ctx : Type} (jsonLoads : ByteSeq → Ctx)
    (b64decode : String → ByteSeq) (i : Instance) (resp : Response)
    (response_type : String) (hmode : i.context_in_body = false)
    (hrt : ImageBearing response_type) :
    (∀ v, resp.headerGet "ContextBase64utf" = some v →
      i.response_to_result jsonLoads b64decode resp response_type =
        some ⟨some resp.content, jsonLoads (b64decode v)⟩) ∧
    (resp.headerGet "ContextBase64utf" = none →
      i.response_to_result jsonLoads b64decode resp response_type =
        some ⟨none, jsonLoads resp.content⟩) := by
  have hne := hrt.ne_context
  refine ⟨fun v hv => ?_, fun hv => ?_⟩ <;>
    simp [Instance.response_to_result, hne, hmode, hv]

/-- Witness for C1 at a concrete response in both header shapes. -/
theorem C1_header_mode_decode_witness :
    (Instance.response_to_result ⟨"127.0.0.1", 8000, false, [], ⟨3, 18, 0⟩, "psm"⟩
        id (fun _ => [9]) ⟨[1, 2, 3], [("ContextBase64utf", "eyJ9")]⟩ "image" =
      some ⟨some [1, 2, 3], [9]⟩) ∧
    (Instance.response_to_result ⟨"127.0.0.1", 8000, false, [], ⟨3, 18, 0⟩, "psm"⟩
        id (fun _ => [9]) ⟨[1, 2, 3], []⟩ "image" =
      some ⟨none, [1, 2, 3]⟩) :=
  ⟨(C1_header_mode_decode id (fun _ => [9]) _ _ "image" rfl (Or.inl rfl)).1 "eyJ9"
      (by decide),
   (C1_header_mode_decode id (fun _ => [9]) _ _ "image" rfl (Or.inl rfl)).2 rfl⟩

/-- C2: with `context_in_body` enabled and an image-bearing `response_type`, a
response whose `ImageLen` header holds the decimal for `N` and whose body is `N`
image bytes followed by JSON text splits at byte `N` exactly; with that header absent
or empty (falsy) the whole body is parsed as JSON and there are no image bytes. -/
theorem C2_body_mode_decode {Ctx : Type} (jsonLoads : ByteSeq → Ctx)
    (b64decode : String → ByteSeq) (i : Instance) (resp : Response)
    (response_type : String) (hmode : i.context_in_body = true)
    (hrt : ImageBearing response_type) :
    (∀ s n img rest, resp.headerGet "ImageLen" = some s → pyInt s = some (n : Int) →
      resp.content = img ++ rest → img.length = n →
      i.response_to_result jsonLoads b64decode resp response_type =
        some ⟨some img, jsonLoads rest⟩) ∧
    (resp.headerGet "ImageLen" = none ∨ resp.headerGet "ImageLen" = some "" →
      i.response_to_result jsonLoads b64decode resp response_type =
        some ⟨none, jsonLoads resp.content⟩) := by
  have hne := hrt.ne_context
  constructor
  · intro s n img rest hhdr hs hcontent hlen
    have hsne : s ≠ "" := by
      rintro rfl
      rw [show pyInt "" = none from by decide] at hs
      exact Option.noConfusion hs
    have hTo : pySliceTo (n : Int) resp.content = img := by
      simp [pySliceTo, hcontent, ← hlen, Int.toNat_natCast, List.take_left]
    have hFrom : pySliceFrom (n : Int) resp.content = rest := by
      simp [pySliceFrom, hcontent, ← hlen, Int.toNat_natCast, List.drop_left]
    simp [Instance.response_to_result, hne, hmode, hhdr, hsne, hs, hTo, hFrom]
  · rintro (hv | hv) <;> simp [Instance.response_to_result, hne, hmode, hv]

/-- Witness for C2 at a concrete split body and at a missing header. -/
theorem C2_body_mode_decode_witness :
    (Instance.response_to_result ⟨"127.0.0.1", 8000, true, [], ⟨3, 18, 0⟩, "psm"⟩
        id (fun _ => []) ⟨[7, 8, 123, 125], [("ImageLen", "2")]⟩ "heatmap" =
      some ⟨some [7, 8], [123, 125]⟩) ∧
    (Instance.response_to_result ⟨"127.0.0.1", 8000, true, [], ⟨3, 18, 0⟩, "psm"⟩
        id (fun _ => []) ⟨[7, 8], []⟩ "heatmap" =
      some ⟨none, [7, 8]⟩) :=
  ⟨(C2_body_mode_decode id (fun _ => []) _ _ "heatmap" rfl
        (Or.inr (Or.inr rfl))).1 "2" 2 [7, 8] [123, 125] rfl (by decide) rfl rfl,
   (C2_body_mode_decode id (fun _ => []) _ _ "heatmap" rfl
        (Or.inr (Or.inr rfl))).2 (Or.inl rfl)⟩

/-- The shared-memory gate, spelled out: the host is one of the local interface
addresses or a loopback/localhost literal, and the reported server version is at
least 3.18.0 (lexicographically on the release triple). -/
def ShmGate (i : Instance) : Prop :=
  (i.host ∈ i.localAddresses ∨ i.host = "127.0.0.1" ∨ i.host = "localhost") ∧
    (v3_18_0.major < i.serverVersion.major ∨
      (v3_18_0.major = i.serverVersion.major ∧
        (v3_18_0.minor < i.serverVersion.minor ∨
          (v3_18_0.minor = i.serverVersion.minor ∧
            v3_18_0.micro ≤ i.serverVersion.micro))))

theorem Instance.can_use_shm_iff (i : Instance) : i.can_use_shm = true ↔ ShmGate i := by
  simp only [Instance.can_use_shm, Instance.is_local, ShmGate, PkgVersion.ge,
    Bool.and_eq_true, Bool.or_eq_true, decide_eq_true_eq, beq_iff_eq, List.elem_iff,
    List.mem_append, List.mem_cons, List.mem_singleton, List.not_mem_nil, or_false]

/-- C7: an unknown `response_type` makes `analyze` fail with
`InvalidResponseTypeError` for every image argument; no request is produced. -/
theorem C7_invalid_response_type (i : Instance) (readFile : String → ByteSeq)
    (image : ImageArg) (response_type : String) (data : Option String)
    (hrt : response_type ∉ ALLOWED_RESPONSE_TYPES) :
    i.analyze readFile image response_type data =
      .error (.invalidResponseType response_type) := by
  simp [Instance.analyze, hrt]

/-- Witness for C7 at `response_type = "bogus"` with a pixel-array image. -/
theorem C7_invalid_response_type_witness :
    "bogus" ∉ ALLOWED_RESPONSE_TYPES ∧
    Instance.analyze ⟨"127.0.0.1", 8000, false, [], ⟨3, 18, 0⟩, "psm"⟩ (fun _ => [])
        (.ndarray ⟨2, 2, [0, 0, 0, 0]⟩) "bogus" none =
      .error (.invalidResponseType "bogus") :=
  ⟨by decide, C7_invalid_response_type _ _ _ _ _ (by decide)⟩

/-- C8: with a valid `response_type`, an image argument that is none of
path/bytes/pixel-array makes `analyze` fail with `InvalidDataTypeError`; no request
is produced. -/
theorem C8_invalid_data_type (i : Instance) (readFile : String → ByteSeq)
    (typeName : String) (response_type : String) (data : Option String)
    (hrt : response_type ∈ ALLOWED_RESPONSE_TYPES) :
    i.analyze readFile (.other typeName) response_type data =
      .error (.invalidDataType typeName) := by
  simp [Instance.analyze, hrt]

/-- Witness for C8 at a dict-typed image argument. -/
theorem C8_invalid_data_type_witness :
    "context" ∈ ALLOWED_RESPONSE_TYPES ∧
    Instance.analyze ⟨"127.0.0.1", 8000, false, [], ⟨3, 18, 0⟩, "psm"⟩ (fun _ => [])
        (.other "dict") "context" none =
      .error (.invalidDataType "dict") :=
  ⟨by decide, C8_invalid_data_type _ _ _ _ _ (by decide)⟩

/-- C5: for a pixel-array image and valid `response_type`, `analyze` produces a
request whose endpoint is the shared-memory one exactly when the host is local (an
interface address or loopback/localhost literal) and the server version is at least
3.18.0; in every other case the raw-pixel endpoint is used. -/
theorem C5_shm_gating (i : Instance) (readFile : String → ByteSeq) (a : NdArray)
    (response_type : String) (data : Option String)
    (hrt : response_type ∈ ALLOWED_RESPONSE_TYPES) :
    ∃ req, i.analyze readFile (.ndarray a) response_type data = .ok req ∧
      (req.endpoint = UrlEndpoint.analyze_image_shared_memory ↔ ShmGate i) ∧
      (¬ ShmGate i → req.endpoint = UrlEndpoint.analyze_raw_image) := by
  by_cases h : i.can_use_shm = true
  · refine ⟨i.analyze_numpy_shm_req a response_type data, ?_, ?_, ?_⟩
    · simp [Instance.analyze, hrt, h]
    · exact iff_of_true rfl ((i.can_use_shm_iff).mp h)
    · exact fun hg => absurd ((i.can_use_shm_iff).mp h) hg
  · refine ⟨i.analyze_numpy_req a response_type data, ?_, ?_, ?_⟩
    · simp [Instance.analyze, hrt, h]
    · refine iff_of_false (by simp [Instance.analyze_numpy_req]) ?_
      exact fun hg => h ((i.can_use_shm_iff).mpr hg)
    · intro _; rfl

/-- Witness for C5: local host, version 3.18.0, so the shared-memory endpoint is
chosen. -/
theorem C5_shm_gating_witness :
    "image" ∈ ALLOWED_RESPONSE_TYPES ∧
    ∃ req,
      Instance.analyze ⟨"localhost", 8000, false, [], ⟨3, 18, 0⟩, "psm"⟩ (fun _ => [])
          (.ndarray ⟨1, 1, [5]⟩) "image" none = .ok req ∧
      (req.endpoint = UrlEndpoint.analyze_image_shared_memory ↔
        ShmGate ⟨"localhost", 8000, false, [], ⟨3, 18, 0⟩, "psm"⟩) ∧
      (¬ ShmGate ⟨"localhost", 8000, false, [], ⟨3, 18, 0⟩, "psm"⟩ →
        req.endpoint = UrlEndpoint.analyze_raw_image) :=
  ⟨by decide, C5_shm_gating _ _ _ _ _ (by decide)⟩

/-- C9: when `analyze` is reached with `data = None`, `_analyze_bytes` still
interpolates the literal pair `data=None` into the query string rather than
omitting the parameter. -/
theorem C9_data_none_in_url (i : Instance) (image : ByteSeq) (response_type : String) :
    ∃ pre post,
      (i.analyze_bytes_req image response_type none).url = pre ++ "data=None" ++ post := by
  refine ⟨"http://" ++ i.host ++ ":" ++ toString i.port ++
    "/analyze_image?response_type=" ++ response_type ++ "&",
    if i.context_in_body then "&context_in_body" else "", ?_⟩
  have hone : "&".intercalate ["data=None"] = "data=None" := rfl
  have hne : ("data=None" : String) ≠ "" := by decide
  by_cases h : i.context_in_body <;>
    simp [Instance.analyze_bytes_req, Instance.construct_url, pyOfOptStr, pyStr,
      UrlEndpoint.path, h, hone, hne, String.append_assoc]

/-- C6: `stop()` is a no-op when there is no owned process, a stop is in progress,
or no stop key exists; two successive calls issue at most one shutdown request; an
instance that never launched a process (no process handle) issues none. -/
theorem C6_stop_idempotent (st : StopState) (t₁ t₂ : Bool) :
    (st.hasProcess = false ∨ st.stopping = true ∨ st.stop_key = none →
      stop st t₁ = (st, .noop, 0)) ∧
    (stop st t₁).2.2 + (stop (stop st t₁).1 t₂).2.2 ≤ 1 ∧
    (st.hasProcess = false →
      (stop st t₁).2.2 = 0 ∧ (stop (stop st t₁).1 t₂).2.2 = 0) := by
  obtain ⟨hp, sp, key⟩ := st
  cases hp <;> cases sp <;> cases key <;> cases t₁ <;> cases t₂ <;> simp [stop]

/-- Witness for C6 on a never-launched instance state. -/
theorem C6_stop_idempotent_witness :
    stop ⟨false, false, none⟩ false = (⟨false, false, none⟩, .noop, 0) :=
  (C6_stop_idempotent ⟨false, false, none⟩ false false).1 (Or.inl rfl)

/-- C10: a stop that issues the shutdown request and hits a transport timeout raises
`NoConnectionError` with the stopping guard left set, so every later `stop()` call
is a no-op issuing no request; the pre-call state is not restored. -/
theorem C10_failed_stop_not_retried (st : StopState) (k : String) (t₂ : Bool)
    (hp : st.hasProcess = true) (hsp : st.stopping = false)
    (hk : st.stop_key = some k) :
    stop st true = ({ st with stopping := true }, .noConnection, 1) ∧
    stop { st with stopping := true } t₂ = ({ st with stopping := true }, .noop, 0) := by
  obtain ⟨hp', sp', key'⟩ := st
  simp only at hp hsp hk
  subst hp hsp hk
  cases t₂ <;> simp [stop]

/-- Witness for C10: a timed-out stop, then a second call that does nothing. -/
theorem C10_failed_stop_not_retried_witness :
    stop ⟨true, false, some "k"⟩ true = (⟨true, true, some "k"⟩, .noConnection, 1) ∧
    stop ⟨true, true, some "k"⟩ true = (⟨true, true, some "k"⟩, .noop, 0) :=
  C10_failed_stop_not_retried ⟨true, false, some "k"⟩ "k" true rfl rfl rfl

/-- Auxiliary: with no bind-conflict line in the stream, the readiness loop succeeds
exactly when some line (so a nonempty stream) raises both flags: the
`__SERVER_RUNNING__` marker appears unless `server_running` started true, and the
`STOP_INIT_MODEL` marker appears unless `stop_init_model` started true. -/
theorem pollLines_success_iff (sr si exited : Bool) (lines : List String)
    (hno : ∀ l ∈ lines, strIn ADDRESS_IN_USE_MARKER l = false) :
    pollLines sr si exited lines = .success ↔
      (lines ≠ [] ∧ (sr = true ∨ ∃ l ∈ lines, strIn SERVER_RUNNING_MARKER l = true) ∧
        (si = true ∨ ∃ l ∈ lines, strIn STOP_INIT_MODEL_MARKER l = true)) := by
  induction lines generalizing sr si with
  | nil => cases exited <;> simp [pollLines]
  | cons line rest ih =>
    have hline : strIn ADDRESS_IN_USE_MARKER line = false := hno line (by simp)
    have hrest : ∀ l ∈ rest, strIn ADDRESS_IN_USE_MARKER l = false := by
      intro l hl
      exact hno l (by simp [hl])
    by_cases hflags :
      ((sr || strIn SERVER_RUNNING_MARKER line) &&
        (si || strIn STOP_INIT_MODEL_MARKER line)) = true
    · have h12 := hflags
      rw [Bool.and_eq_true, Bool.or_eq_true, Bool.or_eq_true] at h12
      have : pollLines sr si exited (line :: rest) = .success := by
        simp [pollLines, hflags]
      rw [this]
      simp only [ne_eq, List.mem_cons, true_iff, reduceCtorEq]
      refine ⟨by simp, ?_, ?_⟩
      · rcases h12.1 with h | h
        · exact Or.inl h
        · exact Or.inr ⟨line, Or.inl rfl, h⟩
      · rcases h12.2 with h | h
        · exact Or.inl h
        · exact Or.inr ⟨line, Or.inl rfl, h⟩
    · have hstep : pollLines sr si exited (line :: rest) =
          pollLines (sr || strIn SERVER_RUNNING_MARKER line)
            (si || strIn STOP_INIT_MODEL_MARKER line) exited rest := by
        simp [pollLines, hflags, hline]
      rw [hstep, ih _ _ hrest]
      rw [Bool.and_eq_true] at hflags
      simp only [Bool.or_eq_true] at hflags ⊢
      constructor
      · rintro ⟨hne, h2, h3⟩
        refine ⟨by simp, ?_, ?_⟩
        · rcases h2 with (h | h) | ⟨l, hl, h⟩
          · exact Or.inl h
          · exact Or.inr ⟨line, by simp, h⟩
          · exact Or.inr ⟨l, by simp [hl], h⟩
        · rcases h3 with (h | h) | ⟨l, hl, h⟩
          · exact Or.inl h
          · exact Or.inr ⟨line, by simp, h⟩
          · exact Or.inr ⟨l, by simp [hl], h⟩
      · rintro ⟨-, h2, h3⟩
        rcases rest with _ | ⟨r, rs⟩
        · exfalso
          apply hflags
          constructor
          · rcases h2 with h | ⟨l, hl, h⟩
            · exact Or.inl h
            · simp only [List.mem_cons, List.not_mem_nil, or_false] at hl
              subst hl
              exact Or.inr h
          · rcases h3 with h | ⟨l, hl, h⟩
            · exact Or.inl h
            · simp only [List.mem_cons, List.not_mem_nil, or_false] at hl
              subst hl
              exact Or.inr h
        · refine ⟨by simp, ?_, ?_⟩
          · rcases h2 with h | ⟨l, hl, h⟩
            · exact Or.inl (Or.inl h)
            · rcases (List.mem_cons.mp hl) with rfl | hl'
              · exact Or.inl (Or.inr h)
              · exact Or.inr ⟨l, hl', h⟩
          · rcases h3 with h | ⟨l, hl, h⟩
            · exact Or.inl (Or.inl h)
            · rcases (List.mem_cons.mp hl) with rfl | hl'
              · exact Or.inl (Or.inr h)
              · exact Or.inr ⟨l, hl', h⟩

/-- Auxiliary: with no bind-conflict line and the process exited at end-of-file, the
loop either succeeds or raises `PekatNotStartedError` — it cannot hang or conflict. -/
theorem pollLines_exited (sr si : Bool) (lines : List String)
    (hno : ∀ l ∈ lines, strIn ADDRESS_IN_USE_MARKER l = false) :
    pollLines sr si true lines = .success ∨ pollLines sr si true lines = .notStarted := by
  induction lines generalizing sr si with
  | nil => simp [pollLines]
  | cons line rest ih =>
    have hline : strIn ADDRESS_IN_USE_MARKER line = false := hno line (by simp)
    have hrest : ∀ l ∈ rest, strIn ADDRESS_IN_USE_MARKER l = false := by
      intro l hl
      exact hno l (by simp [hl])
    by_cases hflags :
      ((sr || strIn SERVER_RUNNING_MARKER line) &&
        (si || strIn STOP_INIT_MODEL_MARKER line)) = true
    · left
      simp [pollLines, hflags]
    · have hstep : pollLines sr si true (line :: rest) =
          pollLines (sr || strIn SERVER_RUNNING_MARKER line)
            (si || strIn STOP_INIT_MODEL_MARKER line) true rest := by
        simp [pollLines, hflags, hline]
      rw [hstep]
      exact ih _ _ hrest

/-- C4: on a stream with no bind-conflict line, the readiness loop returns success
exactly when the `__SERVER_RUNNING__` marker appeared — and, when the caller asked
to wait for model initialization, also the `STOP_INIT_MODEL` marker — and when the
stream ends with the process exited before that condition holds, the loop ends in
`PekatNotStartedError`; the loop is total over the stream, with no timeout. -/
theorem C4_readiness_loop (wait exited : Bool) (lines : List String)
    (hno : ∀ l ∈ lines, strIn ADDRESS_IN_USE_MARKER l = false) :
    (pollLines false (!wait) exited lines = .success ↔
      ((∃ l ∈ lines, strIn SERVER_RUNNING_MARKER l = true) ∧
        (wait = true → ∃ l ∈ lines, strIn STOP_INIT_MODEL_MARKER l = true))) ∧
    (exited = true →
      ¬ ((∃ l ∈ lines, strIn SERVER_RUNNING_MARKER l = true) ∧
        (wait = true → ∃ l ∈ lines, strIn STOP_INIT_MODEL_MARKER l = true)) →
      pollLines false (!wait) exited lines = .notStarted) := by
  have hiff : pollLines false (!wait) exited lines = .success ↔
      ((∃ l ∈ lines, strIn SERVER_RUNNING_MARKER l = true) ∧
        (wait = true → ∃ l ∈ lines, strIn STOP_INIT_MODEL_MARKER l = true)) := by
    rw [pollLines_success_iff false (!wait) exited lines hno]
    constructor
    · rintro ⟨-, hsrv, hini⟩
      refine ⟨hsrv.resolve_left (by simp), ?_⟩
      intro hwait
      subst hwait
      exact hini.resolve_left (by simp)
    · rintro ⟨hsrv, hini⟩
      obtain ⟨l, hl, hml⟩ := hsrv
      refine ⟨by rintro rfl; exact absurd hl (List.not_mem_nil l),
        Or.inr ⟨l, hl, hml⟩, ?_⟩
      cases wait with
      | false => exact Or.inl rfl
      | true => exact Or.inr (hini rfl)
  refine ⟨hiff, ?_⟩
  rintro rfl hnot
  rcases pollLines_exited false (!wait) lines hno with h | h
  · exact absurd (hiff.mp h) hnot
  · exact h

/-- Witness for C4: a marker line yields success; a markerless stream with the
process exited yields the launch failure. -/
theorem C4_readiness_loop_witness :
    pollLines false (!false) true ["booting", "__SERVER_RUNNING__"] = .success ∧
    pollLines false (!false) true ["booting"] = .notStarted :=
  ⟨(C4_readiness_loop false true ["booting", "__SERVER_RUNNING__"] (by decide)).1.mpr
      ⟨by decide, by decide⟩,
   (C4_readiness_loop false true ["booting"] (by decide)).2 rfl (by decide)⟩

/-- C3: when the polling of an attempt reports the port already in use, a pinned
port makes the launch fail with `PortIsAllocatedError` (the outcome does not depend
on any later environment, so no retry happens), while an auto-allocated port makes
the launch take a fresh ephemeral port and restart the whole procedure as the next
attempt; when polling succeeds, the launch keeps the attempt's port. -/
theorem C3_port_conflict_retry (env : LaunchEnv) (wait : Bool) (fuel attempt port : Nat) :
    (pollLines false (!wait) (env.exited attempt) (env.output attempt) = .conflict →
      start_instance env wait true (fuel + 1) attempt port = .portAllocated port ∧
      start_instance env wait false (fuel + 1) attempt port =
        start_instance env wait false fuel (attempt + 1) (env.fresh attempt)) ∧
    (pollLines false (!wait) (env.exited attempt) (env.output attempt) = .success →
      ∀ pin : Bool, start_instance env wait pin (fuel + 1) attempt port = .started port) := by
  constructor
  · intro h
    constructor <;> simp [start_instance, h]
  · intro h pin
    simp [start_instance, h]

/-- Environment for the C3 witness: attempt 0 reports the bind conflict, attempt 1
reports the server running; the ephemeral allocator hands out port 6001. -/
def envW : LaunchEnv :=
  ⟨fun k => if k = 0 then [ADDRESS_IN_USE_MARKER] else [SERVER_RUNNING_MARKER],
   fun _ => true, fun _ => 6001⟩

/-- Witness for C3: pinned port 5000 fails; unpinned retries as attempt 1 on port
6001; a successful attempt keeps its port. -/
theorem C3_port_conflict_retry_witness :
    start_instance envW false true 1 0 5000 = .portAllocated 5000 ∧
    start_instance envW false false 2 0 5000 = start_instance envW false false 1 1 6001 ∧
    start_instance envW false true 1 1 6001 = .started 6001 :=
  ⟨((C3_port_conflict_retry envW false 0 0 5000).1 (by decide)).1,
   ((C3_port_conflict_retry envW false 1 0 5000).1 (by decide)).2,
   (C3_port_conflict_retry envW false 0 1 6001).2 (by decide) true⟩

end PV
